import Mathlib

/-!
Verification development for the qmpbackup backup orchestration engine.

The Python sources are shallowly embedded below:
 - JSON-like values handed over by the hypervisor monitor are modelled by
   the inductive type `PyVal`; Python runtime exceptions by `PyErr`, and
   fallible Python code by `Except PyErr`.
 - External collaborators (the `json.loads` decoder, `os.path.abspath`,
   subprocess invocations and config-file reads) are passed in as explicit
   function parameters; everything else is translated from the source.

Sections follow the source files: `libqmpbackup/vm.py` (device inventory),
`libqmpbackup/qmpcommon.py` (transaction builder, job watch loop, bitmap
removal, node names), `libqmpbackup/image.py` (target creation) and
`libqmpbackup/lib.py` (rebase).
-/

/-! ## String helpers (kernel-computable replacements for Python str methods) -/

/-- Python `s.startswith(p)`. -/
def strStartsWith (s p : String) : Bool := p.toList.isPrefixOf s.toList

/-- Python `s.endswith(p)`. -/
def strEndsWith (s p : String) : Bool := p.toList.isSuffixOf s.toList

/-- Membership of `nd` as a contiguous run inside `hay` (list form). -/
def listInfix (nd : List Char) : List Char → Bool
  | [] => nd.isPrefixOf []
  | c :: t => nd.isPrefixOf (c :: t) || listInfix nd t

/-- Python `nd in hay` for strings (substring containment). -/
def strContains (hay nd : String) : Bool := listInfix nd.toList hay.toList

/-- Python `c.upper()` for an ASCII character. -/
def upChar (c : Char) : Char :=
  if 'a' ≤ c ∧ c ≤ 'z' then Char.ofNat (c.toNat - 32) else c

/-- Python `s.upper()` (ASCII part, which is all the backup levels use). -/
def strUpper (s : String) : String := String.mk (s.toList.map upChar)

/-- Python `s[n:]` for a string. -/
def strDropN (s : String) : Nat → String := fun n => String.mk (s.toList.drop n)

/-- Python `" ".join(l)`. -/
def joinSpace : List String → String
  | [] => ""
  | [x] => x
  | x :: xs => x ++ " " ++ joinSpace xs

/-- Position of the last `/` in a character list, if any. -/
def lastSlash : List Char → Option Nat
  | [] => none
  | c :: t =>
    match lastSlash t with
    | some i => some (i + 1)
    | none => if c = '/' then some 0 else none

/-- Python `os.path.basename(p)`: everything after the last slash. -/
def basename (p : String) : String :=
  match lastSlash p.toList with
  | none => p
  | some i => String.mk (p.toList.drop (i + 1))

/-- Python `os.path.dirname(p)` (POSIX): head up to the last slash, with
trailing slashes stripped unless the head is all slashes. -/
def dirname (p : String) : String :=
  match lastSlash p.toList with
  | none => ""
  | some i =>
    let head := p.toList.take (i + 1)
    if head.all (fun c => c = '/') then String.mk head
    else String.mk ((head.reverse.dropWhile (fun c => c = '/')).reverse)

/-- Python `os.path.join(a, b)` for two components (POSIX). -/
def pathJoin (a b : String) : String :=
  if strStartsWith b "/" then b
  else if a = "" then b
  else if strEndsWith a "/" then a ++ b
  else a ++ "/" ++ b

/-! ## Python value and exception model -/

/-- Python runtime exceptions that the embedded code can raise. -/
inductive PyErr where
  | keyError
  | typeError
  | indexError
  | attributeError
  | valueError
  | jsonDecodeError
  | unboundLocal
  | runtimeError
  | zeroDivision
deriving DecidableEq, Repr

/-- JSON-like Python values as delivered by the QMP monitor. -/
inductive PyVal where
  | nil : PyVal
  | boolean (b : Bool) : PyVal
  | string (s : String) : PyVal
  | integer (n : Int) : PyVal
  | arr (xs : List PyVal) : PyVal
  | obj (kvs : List (String × PyVal)) : PyVal
deriving Repr

/-- Python `d[k]` for a string key: KeyError on a dict missing the key,
TypeError when subscripting a non-dict with a string. -/
def PyVal.getItem : PyVal → String → Except PyErr PyVal
  | .obj kvs, k =>
    match kvs.lookup k with
    | some v => .ok v
    | none => .error .keyError
  | _, _ => .error .typeError

/-- Python `x[i]` for a non-negative integer index: lists raise IndexError
out of range, strings index to a 1-character string, dicts with string keys
raise KeyError for an integer key, the rest raise TypeError. -/
def PyVal.getIdx : PyVal → Nat → Except PyErr PyVal
  | .arr xs, i =>
    match xs.get? i with
    | some v => .ok v
    | none => .error .indexError
  | .string s, i =>
    match s.toList.get? i with
    | some c => .ok (.string (String.mk [c]))
    | none => .error .indexError
  | .obj _, _ => .error .keyError
  | _, _ => .error .typeError

/-- Python `v == lit` for a string literal: equal strings only, no error. -/
def PyVal.eqStr : PyVal → String → Bool
  | .string s, t => s = t
  | _, _ => false

/-- Python `v is True`: identity with the `True` singleton. -/
def PyVal.isTrueLit : PyVal → Bool
  | .boolean true => true
  | _ => false

/-- Python `needle in container` for a string needle: dict keys, list
elements (via `==`), substring for strings, TypeError otherwise. -/
def pyContains (container : PyVal) (needle : String) : Except PyErr Bool :=
  match container with
  | .obj kvs => .ok (kvs.any (fun kv => kv.1 = needle))
  | .arr xs => .ok (xs.any (fun v => PyVal.eqStr v needle))
  | .string s => .ok (strContains s needle)
  | _ => .error .typeError

/-- Python `len(v)`: TypeError on values without a length. -/
def pyLen (v : PyVal) : Except PyErr Nat :=
  match v with
  | .arr xs => .ok xs.length
  | .obj kvs => .ok kvs.length
  | .string s => .ok s.toList.length
  | _ => .error .typeError

/-- Python `for x in v`: list elements, dict keys, string characters;
TypeError otherwise. -/
def pyIterate (v : PyVal) : Except PyErr (List PyVal) :=
  match v with
  | .arr xs => .ok xs
  | .obj kvs => .ok (kvs.map (fun kv => PyVal.string kv.1))
  | .string s => .ok (s.toList.map (fun c => PyVal.string (String.mk [c])))
  | _ => .error .typeError

/-- Calling a str method on a non-string raises AttributeError. -/
def asStr (v : PyVal) : Except PyErr String :=
  match v with
  | .string s => .ok s
  | _ => .error .attributeError

/-- Passing a non-string where a path string is required raises TypeError. -/
def asStrPath (v : PyVal) : Except PyErr String :=
  match v with
  | .string s => .ok s
  | _ => .error .typeError

/-- Python truthiness. -/
def pyTruthy (v : PyVal) : Bool :=
  match v with
  | .nil => false
  | .boolean b => b
  | .string s => s ≠ ""
  | .integer n => n ≠ 0
  | .arr xs => !xs.isEmpty
  | .obj kvs => !kvs.isEmpty

mutual

/-- Python `repr(v)`; exact for scalars and strings, and a faithful
rendering of containers for the shapes the development evaluates. -/
def pyRepr : PyVal → String
  | .nil => "None"
  | .boolean true => "True"
  | .boolean false => "False"
  | .string s => "'" ++ s ++ "'"
  | .integer n => toString n
  | .arr xs => "[" ++ pyReprList xs ++ "]"
  | .obj kvs => "\x7b" ++ pyReprKVs kvs ++ "\x7d"

/-- Comma-separated reprs of list elements. -/
def pyReprList : List PyVal → String
  | [] => ""
  | [x] => pyRepr x
  | x :: y :: xs => pyRepr x ++ ", " ++ pyReprList (y :: xs)

/-- Comma-separated reprs of dict items. -/
def pyReprKVs : List (String × PyVal) → String
  | [] => ""
  | [(k, v)] => "'" ++ k ++ "': " ++ pyRepr v
  | (k, v) :: y :: xs => "'" ++ k ++ "': " ++ pyRepr v ++ ", " ++ pyReprKVs (y :: xs)

end

/-- Python `str(v)` as used by f-string interpolation: the string itself
for strings, `repr` otherwise. -/
def pyFmt : PyVal → String
  | .string s => s
  | v => pyRepr v

/-! ## Device inventory: `libqmpbackup/vm.py` -/

/-- BlockDev, mirroring the `vm.py` dataclass.  Fields that the source can
only ever populate with a string (a str method or path call is applied to
the value on the way into the constructor, so a non-string would have
raised) are typed `String`; the rest keep the raw monitor value. -/
structure BlockDev where
  device : PyVal
  format : PyVal
  filename : String
  backing_image : PyVal
  has_bitmap : Bool
  bitmaps : PyVal
  virtual_size : PyVal
  driver : PyVal
  node : String
  node_safe : String
  path : String
  qdev : PyVal
  child_device : Option String
deriving Repr

/-- Command line namespace: the argparse fields read by the embedded code. -/
structure Argv where
  level : String
  include_raw : Bool
  no_persist : Bool
  no_fleece : Bool
  compress : Bool
  speed_limit : Int
  no_subdir : Bool
  no_timestamp : Bool
deriving Repr

/-- vm.py lines 68-78: skip condition for raw images.  The warning that
accompanies the skip reads `inserted["image"]["filename"]`, so that lookup
is part of the skip path. -/
def rawSkip (argv : Argv) (device inserted : PyVal) : Except PyErr Bool := do
  let drv ← inserted.getItem "drv"
  if PyVal.eqStr drv "raw" then
    if argv.include_raw then pure false
    else do
      let dn ← device.getItem "device"
      let s ← asStr dn
      if strStartsWith s "pflash" then pure false
      else do
        let img ← inserted.getItem "image"
        let _ ← img.getItem "filename"
        pure true
  else pure false

/-- vm.py lines 80-89: child node detection.  Only KeyError is caught. -/
def detectChild (device : PyVal) : Except PyErr (Option String) :=
  match (device.getItem "inserted" >>= fun i =>
         i.getItem "children" >>= fun ch =>
         ch.getIdx 0 >>= fun c0 => c0.getItem "node-name") with
  | .error .keyError => .ok none
  | .error e => .error e
  | .ok c => do
    let s ← asStr c
    if strStartsWith s "#block" then pure none else pure (some s)

/-- vm.py lines 93-99: scan the named-block-nodes answer for the child
node; the last matching entry that has dirty-bitmaps wins. -/
def namedLoop (child : String) : PyVal → List PyVal → Except PyErr PyVal
  | bitmaps, [] => .ok bitmaps
  | bitmaps, named :: rest => do
    let nn ← named.getItem "node-name"
    if PyVal.eqStr nn child then
      match named.getItem "dirty-bitmaps" with
      | .ok v => namedLoop child v rest
      | .error .keyError => namedLoop child bitmaps rest
      | .error e => .error e
    else namedLoop child bitmaps rest

/-- vm.py lines 91-104: bitmap source selection. -/
def selectBitmaps (named : List PyVal) (child : Option String)
    (inserted device : PyVal) : Except PyErr PyVal :=
  match child with
  | some c => namedLoop c (.arr []) named
  | none => do
    let hi ← pyContains inserted "dirty-bitmaps"
    let b1 ← if hi then inserted.getItem "dirty-bitmaps" else pure (PyVal.arr [])
    let hd ← pyContains device "dirty-bitmaps"
    let b2 ← if hd then device.getItem "dirty-bitmaps" else pure b1
    pure b2

/-- vm.py lines 107-116: scan the bitmap list for a name ending in the
UUID; entries without a name are skipped (KeyError caught), a non-string
name raises AttributeError at `.endswith`. -/
def hbLoop (u : String) : List PyVal → Except PyErr Bool
  | [] => .ok false
  | b :: rest =>
    match b.getItem "name" with
    | .error .keyError => hbLoop u rest
    | .error e => .error e
    | .ok v => do
      let s ← asStr v
      if strEndsWith s u then pure true else hbLoop u rest

/-- vm.py lines 106-119: the `has_bitmap` decision. -/
def computeHasBitmap (bitmaps : PyVal) (uuid : Option String) :
    Except PyErr Bool := do
  let n ← pyLen bitmaps
  match uuid with
  | some u =>
    if n > 0 then do
      let items ← pyIterate bitmaps
      hbLoop u items
    else pure false
  | none => pure (decide (n > 0))

/-- vm.py lines 130-132: the `except KeyError` handler of the backing
image detection; `backing` keeps whatever the try block assigned before
the failing lookup. -/
def imageInfoFallback (inserted backing : PyVal) :
    Except PyErr (PyVal × PyVal × PyVal) := do
  let img ← inserted.getItem "image"
  let f ← img.getItem "filename"
  let d ← img.getItem "format"
  pure (backing, f, d)

/-- vm.py lines 121-132: backing image detection.  The whole try block,
including the warning's `device["inserted"]["node-name"]` lookup, is
guarded by `except KeyError`; assignments made before the failing lookup
persist, so `backing_image` keeps the backing-image object even when the
handler recomputes filename and format. -/
def extractImageInfo (device inserted : PyVal) :
    Except PyErr (PyVal × PyVal × PyVal) :=
  match (inserted.getItem "image" >>= fun img => img.getItem "backing-image") with
  | .error .keyError => imageInfoFallback inserted (.boolean false)
  | .error e => .error e
  | .ok b =>
    match b.getItem "filename" with
    | .error .keyError => imageInfoFallback inserted b
    | .error e => .error e
    | .ok f =>
      match b.getItem "format" with
      | .error .keyError => imageInfoFallback inserted b
      | .error e => .error e
      | .ok d =>
        match (device.getItem "inserted" >>= fun i => i.getItem "node-name") with
        | .error .keyError => imageInfoFallback inserted b
        | .error e => .error e
        | .ok _ => pure (b, f, d)

/-- vm.py lines 149-157: fallback of the json-encoded filename handling;
the warning on the skip path reads `device["device"]`. -/
def jsonFallback (device encoded : PyVal) (driver : PyVal) :
    Except PyErr (Option (PyVal × PyVal)) :=
  match (encoded.getItem "file" >>= fun f =>
         f.getItem "next" >>= fun n => n.getItem "filename") with
  | .error .keyError => do
    let _ ← device.getItem "device"
    pure none
  | .error e => .error e
  | .ok fn => pure (some (fn, driver))

/-- vm.py lines 134-164: `json:` filename resolution.  `json.loads` is the
external decoder `jloads`; only its decode failure is caught, and the
warning on that path reads `device["device"]`. -/
def resolveJson (jloads : String → Except PyErr PyVal) (device : PyVal)
    (filename : String) (driver0 : PyVal) :
    Except PyErr (Option (PyVal × PyVal)) :=
  if strStartsWith filename "json:" then
    match jloads (strDropN filename 5) with
    | .error .jsonDecodeError => do
      let _ ← device.getItem "device"
      pure none
    | .error e => .error e
    | .ok encoded =>
      match (encoded.getItem "file" >>= fun f => f.getItem "driver") with
      | .error .keyError => jsonFallback device encoded driver0
      | .error e => .error e
      | .ok drv =>
        if PyVal.eqStr drv "rbd" then
          match (encoded.getItem "file" >>= fun f => f.getItem "image") with
          | .error .keyError => jsonFallback device encoded drv
          | .error e => .error e
          | .ok img => pure (some (img, drv))
        else jsonFallback device encoded drv
  else pure (some (.string filename, driver0))

/-- vm.py lines 166-178: empty device-name fallback to the node name. -/
def deviceNameStep (device : PyVal) : Except PyErr (Option PyVal) := do
  let dn ← device.getItem "device"
  if PyVal.eqStr dn "" then
    match (device.getItem "inserted" >>= fun i => i.getItem "node-name") with
    | .error .keyError => pure none
    | .error e => .error e
    | .ok nn => pure (some nn)
  else pure (some dn)

/-- Python `v in l` for a list of strings. -/
def inStrList (v : PyVal) (l : List String) : Bool :=
  l.any (fun s => PyVal.eqStr v s)

/-- vm.py lines 180-189: include filter; `inserted["node-name"]` is only
read when the device name did not match (short-circuit `or`). -/
def includeSkip (included : List String) (deviceName inserted : PyVal) :
    Except PyErr Bool :=
  if included ≠ [] then
    if inStrList deviceName included then pure false
    else do
      let nn ← inserted.getItem "node-name"
      pure (!(inStrList nn included))
  else pure false

/-- vm.py lines 191-200: exclude filter. -/
def excludeSkip (excluded : List String) (deviceName inserted : PyVal) :
    Except PyErr Bool :=
  if excluded ≠ [] then
    if inStrList deviceName excluded then pure true
    else do
      let nn ← inserted.getItem "node-name"
      pure (inStrList nn excluded)
  else pure false

/-- Per-device data accumulated by the loop body before the qdev step. -/
structure MidInfo where
  inserted : PyVal
  child : Option String
  bitmaps : PyVal
  has_bitmap : Bool
  backing_image : PyVal
  filename : PyVal
  diskformat : PyVal
  driver : PyVal
  deviceName : PyVal
deriving Repr

/-- vm.py lines 58-200: the loop body of `get_block_devices` up to (not
including) the qdev step; `none` means the device is skipped. -/
def phase1 (jloads : String → Except PyErr PyVal) (argv : Argv)
    (named : List PyVal) (excluded included : List String)
    (uuid : Option String) (device : PyVal) :
    Except PyErr (Option MidInfo) := do
  let ins ← pyContains device "inserted"
  if !ins then pure none
  else do
    let inserted ← device.getItem "inserted"
    let skipRaw ← rawSkip argv device inserted
    if skipRaw then pure none
    else do
      let child ← detectChild device
      let bitmaps ← selectBitmaps named child inserted device
      let has_bitmap ← computeHasBitmap bitmaps uuid
      let info ← extractImageInfo device inserted
      let filename0 ← asStr info.2.1
      let r ← resolveJson jloads device filename0 PyVal.nil
      match r with
      | none => pure none
      | some fd => do
        let dn ← deviceNameStep device
        match dn with
        | none => pure none
        | some deviceName => do
          let inc ← includeSkip included deviceName inserted
          if inc then pure none
          else do
            let exc ← excludeSkip excluded deviceName inserted
            if exc then pure none
            else
              pure (some { inserted := inserted, child := child,
                           bitmaps := bitmaps, has_bitmap := has_bitmap,
                           backing_image := info.1, filename := fd.1,
                           diskformat := info.2.2, driver := fd.2,
                           deviceName := deviceName })

/-- vm.py lines 215-231: the `BlockDev(...)` constructor call; arguments
are evaluated left to right, so the `virtual-size` and `node-name`
lookups, the `.replace` on the node name and the path computation all
happen before the (possibly unbound) `qdev` variable is read. -/
def mkBlockDev (abspath : String → String) (m : MidInfo)
    (qdevE : Except PyErr PyVal) : Except PyErr BlockDev := do
  let vs ← (m.inserted.getItem "image" >>= fun img => img.getItem "virtual-size")
  let nn ← m.inserted.getItem "node-name"
  let nns ← asStr nn
  let fs ← asStrPath m.filename
  let q ← qdevE
  pure { device := m.deviceName, format := m.diskformat, filename := fs,
         backing_image := m.backing_image, has_bitmap := m.has_bitmap,
         bitmaps := m.bitmaps, virtual_size := vs, driver := m.driver,
         node := nns,
         node_safe := String.mk (nns.toList.filter (fun c => c ≠ '#')),
         path := dirname (abspath fs), qdev := q,
         child_device := m.child }

/-- vm.py lines 202-231: the qdev step and append.  On KeyError the device
is skipped unless `backing_image is True`; on the (never taken in practice)
fall-through, the `qdev` name reuses the binding of an earlier iteration
and raises UnboundLocalError when none exists. -/
def phase2 (abspath : String → String) (qdevPrev : Option PyVal)
    (device : PyVal) (m : MidInfo) :
    Except PyErr (Option BlockDev × Option PyVal) :=
  match device.getItem "qdev" with
  | .ok q => do
    let bd ← mkBlockDev abspath m (.ok q)
    pure (some bd, some q)
  | .error .keyError =>
    if !m.backing_image.isTrueLit then pure (none, qdevPrev)
    else do
      let bd ← mkBlockDev abspath m
        (match qdevPrev with
         | some q => .ok q
         | none => .error .unboundLocal)
      pure (some bd, qdevPrev)
  | .error e => .error e

/-- One iteration of the `get_block_devices` loop. -/
def processDevice (jloads : String → Except PyErr PyVal)
    (abspath : String → String) (argv : Argv) (named : List PyVal)
    (excluded included : List String) (uuid : Option String)
    (qdevPrev : Option PyVal) (device : PyVal) :
    Except PyErr (Option BlockDev × Option PyVal) := do
  let r ← phase1 jloads argv named excluded included uuid device
  match r with
  | none => pure (none, qdevPrev)
  | some m => phase2 abspath qdevPrev device m

/-- The `get_block_devices` loop over the inventory, threading the `qdev`
variable binding between iterations. -/
def devLoop (jloads : String → Except PyErr PyVal)
    (abspath : String → String) (argv : Argv) (named : List PyVal)
    (excluded included : List String) (uuid : Option String) :
    Option PyVal → List BlockDev → List PyVal →
    Except PyErr (List BlockDev)
  | _, acc, [] => .ok acc
  | qd, acc, d :: rest => do
    let r ← processDevice jloads abspath argv named excluded included uuid qd d
    match r.1 with
    | none => devLoop jloads abspath argv named excluded included uuid r.2 acc rest
    | some bd =>
      devLoop jloads abspath argv named excluded included uuid r.2 (acc ++ [bd]) rest

/-- vm.py lines 51-236: `get_block_devices`; returns `none` (Python
`None`) when no eligible device is found. -/
def get_block_devices (jloads : String → Except PyErr PyVal)
    (abspath : String → String) (blockinfo named_block_info : List PyVal)
    (argv : Argv) (excluded_disks included_disks : List String)
    (uuid : Option String) : Except PyErr (Option (List BlockDev)) := do
  let devs ← devLoop jloads abspath argv named_block_info excluded_disks
    included_disks uuid none [] blockinfo
  if devs.isEmpty then pure none else pure (some devs)

/-! ## Node names and transaction builder: `libqmpbackup/qmpcommon.py` -/

/-- qmpcommon.py line 244: backup target node name. -/
def targetNodeName (node_safe : String) : String := "qmpbackup-" ++ node_safe

/-- qmpcommon.py line 158: fleece node name. -/
def fleeceNodeName (node_safe : String) : String :=
  "qmpbackup-" ++ node_safe ++ "-fleece"

/-- qmpcommon.py line 202: copy-before-write filter node name. -/
def cbwNodeName (node_safe : String) : String :=
  "qmpbackup-" ++ node_safe ++ "-cbw"

/-- qmpcommon.py line 182: snapshot-access node name. -/
def snapNodeName (node_safe : String) : String :=
  "qmpbackup-" ++ node_safe ++ "-snap"

/-- Transaction sub-actions as produced by `transaction_action` (which
hyphenates the keyword names); the constructor fields correspond to the
entries of the `data` dict.  `persistent`/`bitmap` are `Option` because
the source sometimes omits those keywords. -/
inductive TAction where
  | bitmapAdd (node name : String) (persistent : Option Bool)
  | bitmapClear (node name : String)
  | bitmapMerge (node target : String) (bitmaps : List (String × String))
  | blockdevBackup (device target sync jobId : String) (speed : Int)
      (compress autoDismiss : Bool) (bitmap : Option String)
deriving DecidableEq, Repr

/-- qmpcommon.py lines 319-427: `prepare_transaction`.  Note that the
source tests `argv.level in ("copy")` and `argv.level in ("full")`, which
are substring tests against a plain string (not tuple membership); they
are embedded as such via `strContains`. -/
def prepare_transaction (argv : Argv) (devices : List BlockDev)
    (uuid : String) : List TAction :=
  let sync := if argv.level = "inc" then "incremental" else "full"
  let bitmap_pfx :=
    if argv.level = "copy" then "qmpbackup-" ++ argv.level else "qmpbackup"
  let persistent :=
    if argv.level = "copy" then false
    else if argv.no_persist then false
    else true
  (devices.map (fun device =>
    let node := match device.child_device with
      | some c => c
      | none => device.node
    let targetdev := "qmpbackup-" ++ device.node_safe
    let bitmap := bitmap_pfx ++ "-" ++ pyFmt device.device ++ "-" ++ uuid
    let job_id := "qmpbackup." ++ device.node_safe ++ "." ++ basename device.filename
    let a1 : List TAction :=
      if ((!device.has_bitmap) && !(device.format.eqStr "raw")
            && (decide (argv.level = "full") || decide (argv.level = "copy")))
          || (device.has_bitmap && strContains "copy" argv.level) then
        [.bitmapAdd node bitmap (some persistent)]
      else []
    let a2 : List TAction :=
      if device.has_bitmap && strContains "full" argv.level
          && !(device.format.eqStr "raw") then
        [.bitmapClear node bitmap]
      else []
    let compress :=
      if device.format.eqStr "raw" && argv.compress then false else argv.compress
    let snapshot_device :=
      if argv.no_fleece = false then "qmpbackup-" ++ device.node_safe ++ "-snap"
      else device.node
    let rest : List TAction :=
      if (argv.level = "full" ∨ argv.level = "copy")
          ∨ (argv.level = "inc" ∧ device.format.eqStr "raw" = true) then
        [.blockdevBackup snapshot_device targetdev sync job_id
          argv.speed_limit compress false none]
      else
        (if argv.no_fleece = false then
          [.bitmapAdd snapshot_device bitmap none,
           .bitmapMerge snapshot_device bitmap [(bitmap, node)]]
         else [])
        ++ [.blockdevBackup snapshot_device targetdev sync job_id
              argv.speed_limit argv.compress false (some bitmap)]
        ++ [.bitmapClear node bitmap]
    a1 ++ a2 ++ rest)).flatten

/-! ## Job watch loop: `libqmpbackup/qmpcommon.py`, `backup` -/

/-- One entry of a `query-block-jobs` answer, with the fields the watch
loop reads (per the QMP schema `error` is present for a failed job). -/
structure Job where
  type : String
  device : String
  status : String
  offset : Int
  len : Int
  error : String
deriving DecidableEq, Repr

/-- Outcome of the watch loop: a raised RuntimeError, the successful
return, or control flowing on to the next poll with the updated
`finished` counter and the dismissed job ids so far. -/
inductive StepRes where
  | fatal (msg : String)
  | allDone (finished : Nat) (dismissed : List String)
  | cont (finished : Nat) (dismissed : List String)
deriving DecidableEq, Repr

/-- qmpcommon.py lines 443-481: one pass over the polled job list.
`dismissed` records the ids passed to `block-job-dismiss`.  The progress
line divides `offset / len`, raising ZeroDivisionError when a watched job
reports `offset != 0` with `len == 0` (impossible in the dismiss branch,
where `offset == len`). -/
def watchJobs (ndevices : Nat) : Nat → List String → List Job → StepRes
  | finished, dismissed, [] => .cont finished dismissed
  | finished, dismissed, j :: rest =>
    if j.type ≠ "backup" then watchJobs ndevices finished dismissed rest
    else if strStartsWith j.device "qmpbackup" = false then
      watchJobs ndevices finished dismissed rest
    else if j.status = "aborting" ∨ j.status = "undefined" then
      .fatal ("Block job failed for device [" ++ j.device ++ "]: ["
        ++ j.status ++ "]")
    else if j.status = "concluded" ∧ j.offset ≠ j.len then
      .fatal ("Block job cancelled during IO: [" ++ j.device ++ "]: ["
        ++ j.status ++ "]" ++ "Offset:Len [" ++ toString j.offset ++ "]: ["
        ++ toString j.len ++ "]: [" ++ j.error ++ "]")
    else if j.status = "concluded" ∧ j.offset = j.len then
      if ndevices = finished + 1 then
        .allDone (finished + 1) (dismissed ++ [j.device])
      else watchJobs ndevices (finished + 1) (dismissed ++ [j.device]) rest
    else
      if j.offset ≠ 0 ∧ j.len = 0 then
        .fatal "ZeroDivisionError: division by zero"
      else watchJobs ndevices finished dismissed rest

/-- qmpcommon.py lines 438-482: the `while True` polling loop of `backup`,
iterated over a finite list of poll answers; runs of the given polls that
neither fail nor complete end in `.cont`. -/
def backup_watch (ndevices : Nat) :
    Nat → List String → List (List Job) → StepRes
  | finished, dismissed, [] => .cont finished dismissed
  | finished, dismissed, r :: rs =>
    match watchJobs ndevices finished dismissed r with
    | .fatal m => .fatal m
    | .allDone f d => .allDone f d
    | .cont f d => backup_watch ndevices f d rs

/-! ## Bitmap removal: `libqmpbackup/qmpcommon.py`, `remove_bitmaps` -/

/-- qmpcommon.py lines 503-524: the per-device bitmap loop; returns the
`(node, name)` arguments of the issued `block-dirty-bitmap-remove`
commands.  `bitmap["name"]` raises KeyError for a nameless bitmap, the
matching test is Python `prefix not in bitmap_name` (containment), and
`.endswith` is only reached for a non-empty uuid. -/
def bitmapLoop (node : String) (pfx uuid : String) :
    List PyVal → Except PyErr (List (String × PyVal))
  | [] => .ok []
  | b :: rest => do
    let nameV ← b.getItem "name"
    let hit ← pyContains nameV pfx
    if !hit then bitmapLoop node pfx uuid rest
    else if uuid ≠ "" then do
      let s ← asStr nameV
      if strEndsWith s uuid = false then bitmapLoop node pfx uuid rest
      else do
        let r ← bitmapLoop node pfx uuid rest
        pure ((node, nameV) :: r)
    else do
      let r ← bitmapLoop node pfx uuid rest
      pure ((node, nameV) :: r)

/-- qmpcommon.py lines 492-524: `remove_bitmaps` (defaults in the source:
`prefix="qmpbackup"`, `uuid=""`).  Devices whose `has_bitmap` flag is
false are passed over entirely. -/
def remove_bitmaps : List BlockDev → String → String →
    Except PyErr (List (String × PyVal))
  | [], _, _ => .ok []
  | dev :: rest, pfx, uuid =>
    if !dev.has_bitmap then remove_bitmaps rest pfx uuid
    else do
      let node := match dev.child_device with
        | some c => c
        | none => dev.node
      let items ← pyIterate dev.bitmaps
      let cmds ← bitmapLoop node pfx uuid items
      let r ← remove_bitmaps rest pfx uuid
      pure (cmds ++ r)

/-! ## Target creation: `libqmpbackup/image.py` -/

/-- Dict assignment `d[k] = v` on an insertion-ordered string dict. -/
def dictSet (l : List (String × String)) (k v : String) :
    List (String × String) :=
  if l.any (fun kv => kv.1 = k) then
    l.map (fun kv => if kv.1 = k then (k, v) else kv)
  else l ++ [(k, v)]

/-- image.py lines 57-85: `_get_options_cmd`.  The config file read and
json parse are the external `cfg`; each option block appends `-o` before
the risky lookup, so a caught KeyError leaves a dangling `-o` behind. -/
def get_options_cmd (cfg : String → Except PyErr PyVal) (backupdir : String)
    (dev : BlockDev) : Except PyErr (List String) := do
  let qcow_config ← cfg (pathJoin backupdir (basename dev.filename ++ ".config"))
  let c1 ← (match (qcow_config.getItem "format-specific" >>= fun f =>
                   f.getItem "data" >>= fun d => d.getItem "compat") with
    | .ok v => .ok ["compat=" ++ pyFmt v]
    | .error .keyError => .ok []
    | .error err => .error err)
  let c2 ← (match qcow_config.getItem "cluster-size" with
    | .ok v => .ok ["cluster_size=" ++ pyFmt v]
    | .error .keyError => .ok []
    | .error err => .error err)
  let c3 ← (match (qcow_config.getItem "format-specific" >>= fun f =>
                   f.getItem "data" >>= fun d => d.getItem "lazy-refcounts") with
    | .ok v => .ok (if pyTruthy v then ["-o", "lazy_refcounts=on"] else [])
    | .error .keyError => .ok ([] : List String)
    | .error err => .error err)
  pure (["-o"] ++ c1 ++ ["-o"] ++ c2 ++ c3)

/-- image.py lines 96-167: the loop body of `create`.  `runner` is the
external `subprocess.check_output`, reporting only success or a
CalledProcessError (raised to the caller as a RuntimeError); `opt`
accumulates across devices exactly as in the source.  No filesystem state
is consulted: the target path is handed to `qemu-img create`
unconditionally. -/
def image_create_loop (cfg : String → Except PyErr PyVal)
    (runner : List String → Bool) (argv : Argv) (backupdir : String)
    (timestamp : Int) :
    List String → List (String × String) → List (String × String) →
    List BlockDev →
    Except PyErr (List (String × String) × List (String × String))
  | _, bt, ft, [] => .ok (bt, ft)
  | opt, bt, ft, dev :: rest => do
    let nodname : PyVal :=
      if strStartsWith dev.node "#block" then dev.device
      else .string dev.node
    let targetdir ←
      if argv.no_subdir then pure backupdir
      else do
        let nd ← asStrPath nodname
        pure (pathJoin backupdir nd)
    let filename :=
      if argv.no_timestamp && (argv.level = "copy" ∨ argv.level = "full") then
        basename dev.filename ++ ".partial"
      else
        strUpper argv.level ++ "-" ++ toString timestamp ++ "-"
          ++ basename dev.filename ++ ".partial"
    let target := pathJoin targetdir filename
    let opt ←
      if !(dev.format.eqStr "raw") then do
        let more ← get_options_cmd cfg backupdir dev
        pure (opt ++ more)
      else pure opt
    let cmd := ["qemu-img", "create", "-f", pyFmt dev.format, target, "-o",
                "size=" ++ pyFmt dev.virtual_size]
    let cmd := if !(dev.format.eqStr "raw") then cmd ++ opt else cmd
    let fleece_filename :=
      strUpper argv.level ++ "-" ++ toString timestamp ++ "-" ++ pyFmt nodname
        ++ ".fleece." ++ pyFmt dev.format
    let fleece_targetfile := pathJoin dev.path fleece_filename
    let fleece_cmd := ["qemu-img", "create", "-f", pyFmt dev.format,
                       fleece_targetfile, "-o", "size=" ++ pyFmt dev.virtual_size]
    if runner cmd = false then .error .runtimeError
    else
      let bt := dictSet bt dev.node target
      if runner fleece_cmd = false then .error .runtimeError
      else
        image_create_loop cfg runner argv backupdir timestamp opt bt
          (dictSet ft dev.node fleece_targetfile) rest

/-- image.py lines 88-168: `create`, returning the per-device backup and
fleece target mappings. -/
def image_create (cfg : String → Except PyErr PyVal)
    (runner : List String → Bool) (argv : Argv) (backupdir : String)
    (timestamp : Int) (blockdev : List BlockDev) :
    Except PyErr (List (String × String) × List (String × String)) :=
  image_create_loop cfg runner argv backupdir timestamp [] [] [] blockdev

/-! ## Rebase: `libqmpbackup/lib.py` -/

/-- Python `l.index(x)`: ValueError when absent. -/
def pyIndexOf : List String → String → Except PyErr Nat
  | [], _ => .error .valueError
  | y :: ys, x =>
    if y = x then .ok 0
    else do
      let i ← pyIndexOf ys x
      pure (i + 1)

/-- Python `l[i]` with negative-index support. -/
def pyListGetI (l : List String) (i : Int) : Except PyErr String :=
  let j : Int := if i < 0 then i + l.length else i
  if j < 0 then .error .indexError
  else match l.get? j.toNat with
    | some v => .ok v
    | none => .error .indexError

/-- Stable insertion of one `(name, mtime)` entry in mtime order. -/
def insertByMtime (x : String × Int) : List (String × Int) → List (String × Int)
  | [] => [x]
  | y :: ys => if x.2 < y.2 then x :: y :: ys else y :: insertByMtime x ys

/-- Python `list.sort(key=os.path.getmtime)`: stable ascending sort. -/
def sortByMtime : List (String × Int) → List (String × Int)
  | [] => []
  | x :: xs => insertByMtime x (sortByMtime xs)

/-- lib.py lines 113-153: the rebase loop over `reversed(images)`; returns
the success flag together with the shell commands actually executed. -/
def rebase_loop (runner : String → Bool) (dry : Bool) (images : List String)
    (untlIdx : Option Nat) :
    Int → List String → List String → Except PyErr (Bool × List String)
  | _, executed, [] => .ok (true, executed)
  | idx, executed, image :: rest =>
    let idx' := idx - 1
    let skip := match untlIdx with
      | some sidx => decide (idx' ≥ (sidx : Int))
      | none => false
    if skip then rebase_loop runner dry images untlIdx idx' executed rest
    else do
      let pos ← pyIndexOf images image
      let atPos ← pyListGetI images (pos : Int)
      if pos = 0 ∨ strContains atPos "FULL-" then .ok (true, executed)
      else do
        let base ← pyListGetI images idx'
        let check_cmd := "qemu-img check '" ++ image ++ "'"
        let p1 := if !dry then (runner check_cmd, executed ++ [check_cmd])
                  else (true, executed)
        if p1.1 = false then .ok (false, p1.2)
        else do
          let rebase_cmd := "qemu-img rebase -f qcow2 -F qcow2 -b \"" ++ base
            ++ "\" \"" ++ image ++ "\" -u"
          let p2 := if !dry then (runner rebase_cmd, p1.2 ++ [rebase_cmd])
                    else (true, p1.2)
          if p2.1 = false then .ok (false, p2.2)
          else
            let commit_cmd := "qemu-img commit '" ++ image ++ "'"
            let p3 := if !dry then (runner commit_cmd, p2.2 ++ [commit_cmd])
                      else (true, p2.2)
            if p3.1 = false then .ok (false, p3.2)
            else rebase_loop runner dry images untlIdx idx' p3.2 rest

/-- lib.py lines 78-83: the `--until` argument names a file missing from
the directory listing. -/
def untilMissingCheck (untl : Option String) (images_flat0 : List String) :
    Bool :=
  match untl with
  | some u => !(images_flat0.contains u)
  | none => false

/-- lib.py lines 111-112: index of the `--until` file in the sorted flat
listing, when given. -/
def untilIdxCompute (untl : Option String) (images_flat : List String) :
    Except PyErr (Option Nat) :=
  match untl with
  | some u => do
    let i ← pyIndexOf images_flat u
    pure (some i)
  | none => pure none

/-- lib.py lines 68-154: `rebase`.  Inputs: whether the directory exists,
its path, the regular files it contains with their mtimes, the dry-run
flag and the `--until` argument; `runner` is the external shell runner.
Returns the boolean result and the executed commands. -/
def rebase (runner : String → Bool) (direxists : Bool) (directory : String)
    (files : List (String × Int)) (dry_run : Bool) (untl : Option String) :
    Except PyErr (Bool × List String) := do
  if !direxists then pure (false, [])
  else do
    let images_flat0 := files.map (fun f => f.1)
    if untilMissingCheck untl images_flat0 then pure (false, [])
    else do
      let sorted := sortByMtime files
      let images := sorted.map (fun f => pathJoin directory f.1)
      let images_flat := sorted.map (fun f => f.1)
      if images.length = 0 then pure (false, [])
      else do
        if strContains (joinSpace images_flat) ".partial" then pure (false, [])
        else do
          let first ← pyListGetI images 0
          if !(strContains first "FULL-") then pure (false, [])
          else do
            let lastI ← pyListGetI images (-1)
            if strContains lastI "FULL-" then pure (false, [])
            else do
              let untlIdx ← untilIdxCompute untl images_flat
              rebase_loop runner dry_run images untlIdx
                ((images.length : Int) - 1) [] images.reverse

/-! ## Specification-side readings used by the theorems -/

/-- Node used for bitmap operations on a device (vm.py `get_node`). -/
def devNode (dev : BlockDev) : String :=
  match dev.child_device with
  | some c => c
  | none => dev.node

/-- The `name` field of a bitmap entry, when present and a string. -/
def bitmapName (b : PyVal) : Option String :=
  match b.getItem "name" with
  | .ok (.string s) => some s
  | _ => none

/-- Entries of a bitmap list value. -/
def bitmapEntries (v : PyVal) : List PyVal :=
  match v with
  | .arr l => l
  | _ => []

/-- Specification reading of the `has_bitmap` decision: true iff a UUID
was supplied and some named bitmap ends with it, or no UUID was supplied
and the bitmap list is non-empty; nameless entries are ignored. -/
def specHasBitmap (l : List PyVal) (uuid : Option String) : Bool :=
  match uuid with
  | some u => l.any (fun b =>
      match bitmapName b with
      | some s => strEndsWith s u
      | none => false)
  | none => !l.isEmpty

/-- Specification reading (amended) of the bitmap removal: on every device
flagged `has_bitmap`, remove exactly the bitmaps whose name contains the
prefix and, when a UUID is given, ends with it. -/
def removedBitmapsSpec (devs : List BlockDev) (pfx uuid : String) :
    List (String × PyVal) :=
  (devs.map (fun dev =>
    if dev.has_bitmap then
      (bitmapEntries dev.bitmaps).filterMap (fun b =>
        match bitmapName b with
        | some s =>
          if strContains s pfx && (decide (uuid = "") || strEndsWith s uuid) then
            some (devNode dev, PyVal.string s)
          else none
        | none => none)
    else [])).flatten

/-- Well-formedness of one bitmap entry as reported by the monitor: an
object whose `name`, if present, is a string. -/
def WFBitmapEntry (b : PyVal) : Prop :=
  ∃ kvs, b = .obj kvs ∧ ∀ v, kvs.lookup "name" = some v → ∃ s, v = .string s

/-- Well-formedness of a device's bitmap list for removal: a list of
objects each carrying a string `name`. -/
def WFBitmaps (dev : BlockDev) : Prop :=
  ∃ l, dev.bitmaps = .arr l ∧
    ∀ b ∈ l, ∃ kvs, b = .obj kvs ∧ ∃ s, kvs.lookup "name" = some (.string s)

/-! ## Concrete fixtures -/

/-- External json decoder stub: never consulted by the fixtures (no
filename starts with `json:`). -/
def jloadsNone : String → Except PyErr PyVal := fun _ => .error .jsonDecodeError

/-- External `os.path.abspath` stub: the fixture paths are absolute. -/
def abspathId : String → String := fun s => s

/-- External config reader stub: never consulted by the raw fixtures. -/
def cfgNone : String → Except PyErr PyVal := fun _ => .error .runtimeError

/-- Baseline argparse namespace for a `full` run without special flags. -/
def argvFullT : Argv :=
  { level := "full", include_raw := false, no_persist := false,
    no_fleece := false, compress := false, speed_limit := 0,
    no_subdir := false, no_timestamp := false }

/-- Same namespace at level `diff`. -/
def argvDiffT : Argv := { argvFullT with level := "diff" }

/-- Same namespace at level `inc`. -/
def argvIncT : Argv := { argvFullT with level := "inc" }

/-- A raw pflash firmware device as reported by `query-block`. -/
def pflashDevice : PyVal := .obj
  [("device", .string "pflash0"),
   ("qdev", .string "/machine/flash0"),
   ("inserted", .obj
     [("drv", .string "raw"),
      ("node-name", .string "pf0"),
      ("image", .obj
        [("filename", .string "/fw/code.img"),
         ("format", .string "raw"),
         ("virtual-size", .integer 1024)])])]

/-- The BlockDev record the inventory builds for `pflashDevice`. -/
def pflashBlockDev : BlockDev :=
  { device := .string "pflash0", format := .string "raw",
    filename := "/fw/code.img", backing_image := .boolean false,
    has_bitmap := false, bitmaps := .arr [], virtual_size := .integer 1024,
    driver := .nil, node := "pf0", node_safe := "pf0", path := "/fw",
    qdev := .string "/machine/flash0", child_device := none }

/-- An ordinary raw disk (not pflash) as reported by `query-block`. -/
def plainRawDevice : PyVal := .obj
  [("device", .string "ide0-hd1"),
   ("qdev", .string "/machine/ide1"),
   ("inserted", .obj
     [("drv", .string "raw"),
      ("node-name", .string "nd9"),
      ("image", .obj
        [("filename", .string "/vm/d.img"),
         ("format", .string "raw"),
         ("virtual-size", .integer 64)])])]

/-- A device that is an active snapshot (backing image present) and has no
`qdev` key. -/
def snapshotDevice : PyVal := .obj
  [("device", .string "sda"),
   ("inserted", .obj
     [("drv", .string "qcow2"),
      ("node-name", .string "nd0"),
      ("image", .obj
        [("filename", .string "/x/top.qcow2"),
         ("format", .string "qcow2"),
         ("virtual-size", .integer 100),
         ("backing-image", .obj
           [("filename", .string "/x/base.qcow2"),
            ("format", .string "qcow2")])])])]

/-- An ordinary qcow2 device with a `qdev` key. -/
def normalDevice : PyVal := .obj
  [("device", .string "sdb"),
   ("qdev", .string "/machine/virtio1"),
   ("inserted", .obj
     [("drv", .string "qcow2"),
      ("node-name", .string "nd1"),
      ("image", .obj
        [("filename", .string "/x/disk1.qcow2"),
         ("format", .string "qcow2"),
         ("virtual-size", .integer 200)])])]

/-- The BlockDev record the inventory builds for `normalDevice`. -/
def normalBlockDev : BlockDev :=
  { device := .string "sdb", format := .string "qcow2",
    filename := "/x/disk1.qcow2", backing_image := .boolean false,
    has_bitmap := false, bitmaps := .arr [], virtual_size := .integer 200,
    driver := .nil, node := "nd1", node_safe := "nd1", path := "/x",
    qdev := .string "/machine/virtio1", child_device := none }

/-- A qcow2 BlockDev with an existing chain bitmap, as fed to the
transaction builder. -/
def devQcow0 : BlockDev :=
  { device := .string "drive0", format := .string "qcow2",
    filename := "/vm/disk0.qcow2", backing_image := .boolean false,
    has_bitmap := true, bitmaps := .arr [], virtual_size := .integer 1024,
    driver := .nil, node := "disk0", node_safe := "disk0", path := "/vm",
    qdev := .string "/machine/virtio0", child_device := none }

/-- A raw BlockDev as fed to target creation. -/
def devRaw1 : BlockDev :=
  { device := .string "drive1", format := .string "raw",
    filename := "/vm/disk1.img", backing_image := .boolean false,
    has_bitmap := false, bitmaps := .arr [], virtual_size := .integer 2048,
    driver := .nil, node := "disk1", node_safe := "disk1", path := "/vm",
    qdev := .string "/machine/virtio2", child_device := none }

/-- Device whose only bitmap merely contains `qmpbackup` inside its name. -/
def devBmA : BlockDev :=
  { device := .string "drive0", format := .string "qcow2",
    filename := "/vm/a.qcow2", backing_image := .boolean false,
    has_bitmap := true,
    bitmaps := .arr [.obj [("name", .string "x-qmpbackup-1")]],
    virtual_size := .integer 1, driver := .nil, node := "node0",
    node_safe := "node0", path := "/vm", qdev := .string "/q0",
    child_device := none }

/-- Device flagged without bitmap although a prefixed bitmap is listed. -/
def devBmB : BlockDev :=
  { device := .string "drive1", format := .string "qcow2",
    filename := "/vm/b.qcow2", backing_image := .boolean false,
    has_bitmap := false,
    bitmaps := .arr [.obj [("name", .string "qmpbackup-y")]],
    virtual_size := .integer 1, driver := .nil, node := "node1",
    node_safe := "node1", path := "/vm", qdev := .string "/q1",
    child_device := none }

/-- A qualifying job that is aborting. -/
def jobAbort : Job :=
  { type := "backup", device := "qmpbackup-disk0", status := "aborting",
    offset := 0, len := 100, error := "" }

/-- A qualifying job concluded short of its length. -/
def jobShort : Job :=
  { type := "backup", device := "qmpbackup-disk0", status := "concluded",
    offset := 50, len := 100, error := "io" }

/-- A qualifying job concluded completely. -/
def jobGood : Job :=
  { type := "backup", device := "qmpbackup-disk0", status := "concluded",
    offset := 100, len := 100, error := "" }

/-! ## Helper lemmas -/

/-- Inversion of a successful bind in the `Except PyErr` monad. -/
theorem exceptBind_ok {α β : Type} {e : Except PyErr α} {f : α → Except PyErr β}
    {b : β} (h : e >>= f = .ok b) : ∃ a, e = .ok a ∧ f a = .ok b := by
  cases e with
  | ok a => exact ⟨a, rfl, h⟩
  | error err => simp [Bind.bind, Except.bind] at h

/-- Inversion of `pure` in the `Except PyErr` monad. -/
theorem exceptPure_ok {α : Type} {a b : α}
    (h : (pure a : Except PyErr α) = .ok b) : a = b := by
  simpa [pure, Except.pure] using h

/-- Only a dict lookup can raise KeyError. -/
theorem getItem_keyError_obj {v : PyVal} {k : String}
    (h : v.getItem k = .error .keyError) : ∃ kvs, v = .obj kvs := by
  cases v <;> simp_all [PyVal.getItem]

/-- Only a dict lookup can succeed. -/
theorem getItem_ok_obj {v x : PyVal} {k : String}
    (h : v.getItem k = .ok x) : ∃ kvs, v = .obj kvs := by
  cases v <;> simp_all [PyVal.getItem]

/-- The KeyError handler passes its `backing` value through unchanged. -/
theorem imageInfoFallback_fst {inserted backing : PyVal}
    {info : PyVal × PyVal × PyVal}
    (h : imageInfoFallback inserted backing = .ok info) : info.1 = backing := by
  unfold imageInfoFallback at h
  obtain ⟨img, h1, h⟩ := exceptBind_ok h
  obtain ⟨f, h2, h⟩ := exceptBind_ok h
  obtain ⟨d, h3, h⟩ := exceptBind_ok h
  have h4 := exceptPure_ok h
  simp [← h4]

/-- A successful backing-image extraction never yields the literal `True`:
the value is either `False` (no backing image) or the backing-image
object. -/
theorem extractImageInfo_not_true {device inserted : PyVal}
    {info : PyVal × PyVal × PyVal}
    (h : extractImageInfo device inserted = .ok info) :
    info.1.isTrueLit = false := by
  unfold extractImageInfo at h
  split at h
  · rw [imageInfoFallback_fst h]; rfl
  · exact absurd h (by simp)
  · rename_i b hb
    split at h
    · rename_i hkey
      obtain ⟨kvs, rfl⟩ := getItem_keyError_obj hkey
      rw [imageInfoFallback_fst h]; rfl
    · exact absurd h (by simp)
    · rename_i f hf
      split at h
      · rename_i hkey
        obtain ⟨kvs, rfl⟩ := getItem_keyError_obj hkey
        rw [imageInfoFallback_fst h]; rfl
      · exact absurd h (by simp)
      · rename_i d hd
        split at h
        · obtain ⟨kvs, rfl⟩ := getItem_ok_obj hf
          rw [imageInfoFallback_fst h]; rfl
        · exact absurd h (by simp)
        · obtain ⟨kvs, rfl⟩ := getItem_ok_obj hf
          have h4 := exceptPure_ok h
          rw [← h4]; rfl

/-- Whenever the loop body passes a device on to the qdev step, the
`backing_image` it carries is not the literal `True`. -/
theorem phase1_backing_not_true {jloads : String → Except PyErr PyVal}
    {argv : Argv} {named : List PyVal} {excluded included : List String}
    {uuid : Option String} {device : PyVal} {m : MidInfo}
    (h : phase1 jloads argv named excluded included uuid device = .ok (some m)) :
    m.backing_image.isTrueLit = false := by
  unfold phase1 at h
  obtain ⟨ins, hins, h⟩ := exceptBind_ok h
  split at h
  · exact absurd (exceptPure_ok h) (by simp)
  · obtain ⟨inserted, hI, h⟩ := exceptBind_ok h
    obtain ⟨skipRaw, hS, h⟩ := exceptBind_ok h
    split at h
    · exact absurd (exceptPure_ok h) (by simp)
    · obtain ⟨child, hC, h⟩ := exceptBind_ok h
      obtain ⟨bitmaps, hB, h⟩ := exceptBind_ok h
      obtain ⟨hb, hH, h⟩ := exceptBind_ok h
      obtain ⟨info, hInfo, h⟩ := exceptBind_ok h
      obtain ⟨fn0, hF, h⟩ := exceptBind_ok h
      obtain ⟨r, hR, h⟩ := exceptBind_ok h
      match r with
      | none => exact absurd (exceptPure_ok h) (by simp)
      | some fd =>
        obtain ⟨dn, hD, h⟩ := exceptBind_ok h
        match dn with
        | none => exact absurd (exceptPure_ok h) (by simp)
        | some deviceName =>
          obtain ⟨inc, hInc, h⟩ := exceptBind_ok h
          split at h
          · exact absurd (exceptPure_ok h) (by simp)
          · obtain ⟨exc, hExc, h⟩ := exceptBind_ok h
            split at h
            · exact absurd (exceptPure_ok h) (by simp)
            · have h4 := exceptPure_ok h
              have hm : m.backing_image = info.1 := by cases h4; rfl
              rw [hm]
              exact extractImageInfo_not_true hInfo

/-- With no `qdev` key and a `backing_image` that is not the literal
`True`, the qdev step skips the device and leaves the binding alone. -/
theorem phase2_skip {abspath : String → String} {qdevPrev : Option PyVal}
    {device : PyVal} {m : MidInfo}
    (hq : device.getItem "qdev" = .error .keyError)
    (hb : m.backing_image.isTrueLit = false) :
    phase2 abspath qdevPrev device m = .ok (none, qdevPrev) := by
  unfold phase2
  rw [hq]
  simp [hb, pure, Except.pure]

/-- Scanning the bitmap list matches the specification reading: the first
named bitmap ending in the UUID decides, nameless entries are skipped. -/
theorem hbLoop_spec (u : String) (l : List PyVal)
    (hwf : ∀ b ∈ l, WFBitmapEntry b) :
    hbLoop u l = .ok (l.any (fun b =>
      match bitmapName b with
      | some s => strEndsWith s u
      | none => false)) := by
  induction l with
  | nil => rfl
  | cons b rest ih =>
    obtain ⟨kvs, rfl, hname⟩ := hwf b (by simp)
    have ihr := ih (fun x hx => hwf x (by simp [hx]))
    cases hL : kvs.lookup "name" with
    | none =>
      have h1 : (PyVal.obj kvs).getItem "name" = .error .keyError := by
        simp [PyVal.getItem, hL]
      have h2 : bitmapName (PyVal.obj kvs) = none := by
        simp [bitmapName, h1]
      simp only [hbLoop, h1, List.any_cons, h2, ihr, Bool.false_or]
    | some v =>
      obtain ⟨s, rfl⟩ := hname v hL
      have h1 : (PyVal.obj kvs).getItem "name" = .ok (.string s) := by
        simp [PyVal.getItem, hL]
      have h2 : bitmapName (PyVal.obj kvs) = some s := by
        simp [bitmapName, h1]
      simp only [hbLoop, h1, List.any_cons, h2]
      cases hEnd : strEndsWith s u with
      | true =>
        simp [asStr, Bind.bind, Except.bind, hEnd, pure, Except.pure]
      | false =>
        simp [asStr, Bind.bind, Except.bind, hEnd, pure, Except.pure, ihr]

/-- One device's bitmap-removal loop equals the specification filter. -/
theorem bitmapLoop_spec (node pfx uuid : String) (l : List PyVal)
    (hwf : ∀ b ∈ l, ∃ kvs, b = .obj kvs ∧
      ∃ s, kvs.lookup "name" = some (.string s)) :
    bitmapLoop node pfx uuid l = .ok (l.filterMap (fun b =>
      match bitmapName b with
      | some s =>
        if strContains s pfx && (decide (uuid = "") || strEndsWith s uuid) then
          some (node, PyVal.string s)
        else none
      | none => none)) := by
  induction l with
  | nil => rfl
  | cons b rest ih =>
    obtain ⟨kvs, rfl, s, hL⟩ := hwf b (by simp)
    have ihr := ih (fun x hx => hwf x (by simp [hx]))
    have h1 : (PyVal.obj kvs).getItem "name" = .ok (.string s) := by
      simp [PyVal.getItem, hL]
    have h2 : bitmapName (PyVal.obj kvs) = some s := by
      simp [bitmapName, h1]
    simp only [bitmapLoop, h1, List.filterMap_cons, h2, Bind.bind, Except.bind]
    by_cases hc : strContains s pfx = true
    · simp only [pyContains, hc, Bool.not_true, Bool.false_eq_true, if_false]
      by_cases hu : uuid = ""
      · subst hu
        simp [ihr, pure, Except.pure, hc]
      · simp only [if_neg (by simpa using hu), asStr]
        cases hEnd : strEndsWith s uuid with
        | false =>
          simp [hu, hEnd, ihr, hc, pure, Except.pure, Bind.bind, Except.bind]
        | true =>
          simp [hu, hEnd, ihr, hc, pure, Except.pure, Bind.bind, Except.bind]
    · have hc' : strContains s pfx = false := by simpa using hc
      simp [pyContains, hc', ihr, pure, Except.pure]

/-- The inner watch pass only reports completion with a counter equal to
the device count. -/
theorem watchJobs_allDone_eq {ndev : Nat} :
    ∀ (js : List Job) (fin : Nat) (ds : List String) (f : Nat)
      (d : List String), watchJobs ndev fin ds js = .allDone f d → f = ndev := by
  intro js
  induction js with
  | nil => intro fin ds f d h; simp [watchJobs] at h
  | cons j rest ih =>
    intro fin ds f d h
    unfold watchJobs at h
    split at h
    · exact ih _ _ _ _ h
    · split at h
      · exact ih _ _ _ _ h
      · split at h
        · simp at h
        · split at h
          · simp at h
          · split at h
            · split at h
              · rename_i hguard
                simp only [StepRes.allDone.injEq] at h
                omega
              · exact ih _ _ _ _ h
            · split at h
              · simp at h
              · exact ih _ _ _ _ h

/-- The polling loop only reports completion with a counter equal to the
device count. -/
theorem backup_watch_allDone_eq {ndev : Nat} :
    ∀ (rounds : List (List Job)) (f0 : Nat) (d0 : List String) (f : Nat)
      (d : List String),
      backup_watch ndev f0 d0 rounds = .allDone f d → f = ndev := by
  intro rounds
  induction rounds with
  | nil => intro f0 d0 f d h; simp [backup_watch] at h
  | cons r rs ih =>
    intro f0 d0 f d h
    unfold backup_watch at h
    split at h
    · simp at h
    · rename_i f' d' heq
      simp only [StepRes.allDone.injEq] at h
      obtain ⟨rfl, rfl⟩ := h
      exact watchJobs_allDone_eq r f0 d0 f' d' heq
    · exact ih _ _ _ _ h

/-- String append distributes over the character lists. -/
theorem strToList_append (a b : String) :
    (a ++ b).toList = a.toList ++ b.toList := by
  rcases a with ⟨la⟩; rcases b with ⟨lb⟩; rfl

/-- Boolean infix test agrees with the list infix relation. -/
theorem listInfix_iff (nd hay : List Char) :
    listInfix nd hay = true ↔ nd <:+: hay := by
  induction hay with
  | nil =>
    simp [listInfix, List.isPrefixOf_iff_prefix, List.prefix_nil,
      List.infix_nil]
  | cons c t ih =>
    simp [listInfix, List.isPrefixOf_iff_prefix, ih, List.infix_cons_iff]

/-- Containment survives appending on the right. -/
theorem strContains_append_left {a nd : String} (b : String)
    (h : strContains a nd = true) : strContains (a ++ b) nd = true := by
  rw [strContains, listInfix_iff] at h ⊢
  rw [strToList_append]
  exact h.trans (List.prefix_append a.toList b.toList).isInfix

/-- Containment survives appending on the left. -/
theorem strContains_append_right {b nd : String} (a : String)
    (h : strContains b nd = true) : strContains (a ++ b) nd = true := by
  rw [strContains, listInfix_iff] at h ⊢
  rw [strToList_append]
  exact h.trans (List.suffix_append a.toList b.toList).isInfix

/-- A needle inside any element is inside the space-join. -/
theorem strContains_joinSpace {l : List String} {s nd : String} (hs : s ∈ l)
    (h : strContains s nd = true) : strContains (joinSpace l) nd = true := by
  induction l with
  | nil => cases hs
  | cons x xs ih =>
    cases xs with
    | nil =>
      rcases List.mem_cons.mp hs with rfl | hs'
      · simpa [joinSpace] using h
      · cases hs'
    | cons y ys =>
      rcases List.mem_cons.mp hs with rfl | hs'
      · show strContains ((s ++ " ") ++ joinSpace (y :: ys)) nd = true
        exact strContains_append_left _ (strContains_append_left _ h)
      · have hr := ih hs'
        show strContains ((x ++ " ") ++ joinSpace (y :: ys)) nd = true
        exact strContains_append_right _ hr

/-- Membership through stable insertion. -/
theorem mem_insertByMtime {x y : String × Int} {l : List (String × Int)} :
    y ∈ insertByMtime x l ↔ y = x ∨ y ∈ l := by
  induction l with
  | nil => simp [insertByMtime]
  | cons z zs ih =>
    simp only [insertByMtime]
    split
    · simp [List.mem_cons]
    · simp only [List.mem_cons, ih]
      tauto

/-- Sorting by mtime preserves membership. -/
theorem mem_sortByMtime {x : String × Int} {l : List (String × Int)} :
    x ∈ sortByMtime l ↔ x ∈ l := by
  induction l with
  | nil => simp [sortByMtime]
  | cons z zs ih => simp [sortByMtime, mem_insertByMtime, ih]

/-! ## Claim theorems -/

/-- Claim C1, counterexample: the claim states the fleecing and CBW node
names have the forms `{node}_fleece` and `{node}_cbw`; for the node
`disk0` the names the code builds use `-fleece` and `-cbw` instead, so
the claimed forms do not match (under either reading of `{node}`, with or
without the `qmpbackup-` target prefix). -/
theorem c1_transient_node_names_counterexample :
    fleeceNodeName "disk0" ≠ targetNodeName "disk0" ++ "_fleece"
    ∧ fleeceNodeName "disk0" ≠ "disk0" ++ "_fleece"
    ∧ cbwNodeName "disk0" ≠ targetNodeName "disk0" ++ "_cbw"
    ∧ cbwNodeName "disk0" ≠ "disk0" ++ "_cbw"
    ∧ snapNodeName "disk0" = targetNodeName "disk0" ++ "-snap" := by
  refine ⟨by decide, by decide, by decide, by decide, rfl⟩

/-- Claim C1, amended: every transient node name of a run carries the
prefix `qmpbackup-`; relative to the target node name the other three
kinds are formed with hyphens as `{node}-fleece`, `{node}-cbw` and
`{node}-snap`. -/
theorem c1_transient_node_names_amended : ∀ node_safe : String,
    (∃ r, targetNodeName node_safe = "qmpbackup-" ++ r)
    ∧ fleeceNodeName node_safe = targetNodeName node_safe ++ "-fleece"
    ∧ cbwNodeName node_safe = targetNodeName node_safe ++ "-cbw"
    ∧ snapNodeName node_safe = targetNodeName node_safe ++ "-snap" :=
  fun node_safe => ⟨⟨node_safe, rfl⟩, rfl, rfl, rfl⟩

/-- Claim C2, code evaluation at the failing input: for a qcow2 device
with a bitmap and fleecing enabled, level `diff` emits bitmap-add,
bitmap-merge, a blockdev-backup whose `sync` is "full" (not
"incremental" as the claim requires for `diff`), and a bitmap-clear;
level `inc` emits the same transaction with `sync` "incremental". -/
theorem c2_inc_diff_transaction_eval :
    prepare_transaction argvDiffT [devQcow0] "u1" =
      [.bitmapAdd "qmpbackup-disk0-snap" "qmpbackup-drive0-u1" none,
       .bitmapMerge "qmpbackup-disk0-snap" "qmpbackup-drive0-u1"
         [("qmpbackup-drive0-u1", "disk0")],
       .blockdevBackup "qmpbackup-disk0-snap" "qmpbackup-disk0" "full"
         "qmpbackup.disk0.disk0.qcow2" 0 false false
         (some "qmpbackup-drive0-u1"),
       .bitmapClear "disk0" "qmpbackup-drive0-u1"]
    ∧ prepare_transaction argvIncT [devQcow0] "u1" =
      [.bitmapAdd "qmpbackup-disk0-snap" "qmpbackup-drive0-u1" none,
       .bitmapMerge "qmpbackup-disk0-snap" "qmpbackup-drive0-u1"
         [("qmpbackup-drive0-u1", "disk0")],
       .blockdevBackup "qmpbackup-disk0-snap" "qmpbackup-disk0" "incremental"
         "qmpbackup.disk0.disk0.qcow2" 0 false false
         (some "qmpbackup-drive0-u1"),
       .bitmapClear "disk0" "qmpbackup-drive0-u1"] :=
  ⟨rfl, rfl⟩

/-- Claim C3, code evaluation at the failing input: a raw device named
`pflash0` with `include_raw` unset is KEPT in the returned list (the
claim and spec say pflash devices are always skipped), while an ordinary
raw device is excluded. -/
theorem c3_raw_pflash_filter_eval :
    get_block_devices jloadsNone abspathId [pflashDevice] [] argvFullT [] []
      none = .ok (some [pflashBlockDev])
    ∧ get_block_devices jloadsNone abspathId [plainRawDevice] [] argvFullT []
      [] none = .ok none :=
  ⟨rfl, rfl⟩

/-- Claim C4: in the job watch loop, for every polled backup job whose
device carries the qmpbackup prefix, aborting/undefined statuses raise a
fatal error naming the device, a concluded job with offset ≠ len raises a
fatal error, a concluded job with offset = len is dismissed and bumps the
completed counter (returning success when it reaches the device count),
and the loop reports success only with the counter equal to the device
count. -/
theorem c4_job_watch_claim :
    (∀ (ndev fin : Nat) (ds : List String) (j : Job) (rest : List Job),
      j.type = "backup" → strStartsWith j.device "qmpbackup" = true →
      (j.status = "aborting" ∨ j.status = "undefined") →
      watchJobs ndev fin ds (j :: rest) =
        .fatal ("Block job failed for device [" ++ j.device ++ "]: ["
          ++ j.status ++ "]"))
    ∧ (∀ (ndev fin : Nat) (ds : List String) (j : Job) (rest : List Job),
      j.type = "backup" → strStartsWith j.device "qmpbackup" = true →
      j.status = "concluded" → j.offset ≠ j.len →
      watchJobs ndev fin ds (j :: rest) =
        .fatal ("Block job cancelled during IO: [" ++ j.device ++ "]: ["
          ++ j.status ++ "]" ++ "Offset:Len [" ++ toString j.offset ++ "]: ["
          ++ toString j.len ++ "]: [" ++ j.error ++ "]"))
    ∧ (∀ (ndev fin : Nat) (ds : List String) (j : Job) (rest : List Job),
      j.type = "backup" → strStartsWith j.device "qmpbackup" = true →
      j.status = "concluded" → j.offset = j.len →
      watchJobs ndev fin ds (j :: rest) =
        (if ndev = fin + 1 then .allDone (fin + 1) (ds ++ [j.device])
         else watchJobs ndev (fin + 1) (ds ++ [j.device]) rest))
    ∧ (∀ (ndev : Nat) (rounds : List (List Job)) (f0 : Nat)
      (d0 : List String) (f : Nat) (d : List String),
      backup_watch ndev f0 d0 rounds = .allDone f d → f = ndev) := by
  refine ⟨?_, ?_, ?_, ?_⟩
  · intro ndev fin ds j rest h1 h2 h3
    unfold watchJobs
    rw [if_neg (by simp [h1]), if_neg (by simp [h2]), if_pos h3]
  · intro ndev fin ds j rest h1 h2 h3 h4
    unfold watchJobs
    rw [if_neg (by simp [h1]), if_neg (by simp [h2]),
      if_neg (by rw [h3]; decide), if_pos ⟨h3, h4⟩]
  · intro ndev fin ds j rest h1 h2 h3 h4
    conv_lhs => unfold watchJobs
    rw [if_neg (by simp [h1]), if_neg (by simp [h2]),
      if_neg (by rw [h3]; decide), if_neg (by simp [h4]), if_pos ⟨h3, h4⟩]
  · intro ndev rounds f0 d0 f d h
    exact backup_watch_allDone_eq rounds f0 d0 f d h

/-- Claim C4 witness: the four parts applied to concrete jobs. -/
theorem c4_job_watch_claim_witness :
    watchJobs 2 0 [] [jobAbort]
      = .fatal ("Block job failed for device [" ++ jobAbort.device ++ "]: ["
          ++ jobAbort.status ++ "]")
    ∧ watchJobs 2 0 [] [jobShort]
      = .fatal ("Block job cancelled during IO: [" ++ jobShort.device
          ++ "]: [" ++ jobShort.status ++ "]" ++ "Offset:Len ["
          ++ toString jobShort.offset ++ "]: [" ++ toString jobShort.len
          ++ "]: [" ++ jobShort.error ++ "]")
    ∧ watchJobs 1 0 [] [jobGood]
      = (if 1 = 0 + 1 then StepRes.allDone (0 + 1) ([] ++ [jobGood.device])
         else watchJobs 1 (0 + 1) ([] ++ [jobGood.device]) [])
    ∧ (backup_watch 1 0 [] [[jobGood]] = .allDone 1 ["qmpbackup-disk0"] →
        1 = 1) :=
  ⟨c4_job_watch_claim.1 2 0 [] jobAbort [] rfl (by decide) (Or.inl rfl),
   c4_job_watch_claim.2.1 2 0 [] jobShort [] rfl (by decide) rfl (by decide),
   c4_job_watch_claim.2.2.1 1 0 [] jobGood [] rfl (by decide) rfl rfl,
   fun h => c4_job_watch_claim.2.2.2 1 [[jobGood]] 0 [] 1 ["qmpbackup-disk0"] h⟩

/-- Claim C5, code evaluation at the failing input: the `diff`
transaction does contain the bitmap-clear on the source node, and it is
not equal to the `inc` transaction with the clear removed (its `sync`
also differs), contradicting the claim that `diff` equals `inc` minus
the clear. -/
theorem c5_diff_vs_inc_eval :
    (TAction.bitmapClear "disk0" "qmpbackup-drive0-u1")
      ∈ prepare_transaction argvDiffT [devQcow0] "u1"
    ∧ prepare_transaction argvDiffT [devQcow0] "u1" ≠
      (prepare_transaction argvIncT [devQcow0] "u1").filter
        (fun a => decide (a ≠ TAction.bitmapClear "disk0" "qmpbackup-drive0-u1")) := by
  decide

/-- Claim C6, code evaluation at the failing input: target creation
consults only the subprocess result; with every invocation succeeding it
returns the target mapping without any already-exists failure, even
though nothing prevented a pre-existing file at the computed path
`/backup/disk1/FULL-7-disk1.img.partial`. -/
theorem c6_create_target_eval :
    image_create cfgNone (fun _ => true) argvFullT "/backup" 7 [devRaw1] =
      .ok ([("disk1", "/backup/disk1/FULL-7-disk1.img.partial")],
           [("disk1", "/vm/FULL-7-disk1.fleece.raw")]) := rfl

/-- Claim C7, counterexample: with prefix `qmpbackup` and no UUID, the
removal issues a remove for the bitmap named `x-qmpbackup-1` (which does
not start with the prefix, only contains it), and leaves intact the
bitmap `qmpbackup-y` (which does start with the prefix) because its
device is not flagged `has_bitmap`. -/
theorem c7_remove_bitmaps_counterexample :
    remove_bitmaps [devBmA, devBmB] "qmpbackup" ""
      = .ok [("node0", .string "x-qmpbackup-1")]
    ∧ strStartsWith "x-qmpbackup-1" "qmpbackup" = false
    ∧ strStartsWith "qmpbackup-y" "qmpbackup" = true :=
  ⟨rfl, by decide, by decide⟩

/-- Claim C7, amended: on devices flagged `has_bitmap`, with bitmap lists
of named entries, the removal removes exactly those bitmaps whose name
contains the prefix as a substring and, when a UUID is given, ends with
that UUID; all other bitmaps, and all bitmaps of devices not flagged
`has_bitmap`, are left intact. -/
theorem c7_remove_bitmaps_amended : ∀ (devs : List BlockDev)
    (pfx uuid : String), (∀ dev ∈ devs, WFBitmaps dev) →
    remove_bitmaps devs pfx uuid = .ok (removedBitmapsSpec devs pfx uuid) := by
  intro devs pfx uuid hwf
  induction devs with
  | nil => rfl
  | cons dev rest ih =>
    have ihr := ih (fun x hx => hwf x (by simp [hx]))
    by_cases hb : dev.has_bitmap
    · obtain ⟨l, hbm, hent⟩ := hwf dev (by simp)
      have hloop := bitmapLoop_spec (devNode dev) pfx uuid l hent
      simp only [remove_bitmaps, hb, Bool.not_true, Bool.false_eq_true,
        if_false, hbm, pyIterate, Bind.bind, Except.bind]
      simp only [devNode] at hloop
      rw [hloop, ihr]
      simp [removedBitmapsSpec, hb, hbm, bitmapEntries, pure, Except.pure,
        devNode]
    · simp [remove_bitmaps, hb, removedBitmapsSpec, ihr]

/-- Claim C7 witness: the amended statement applied to a concrete device
with a named bitmap and a non-empty UUID. -/
theorem c7_remove_bitmaps_amended_witness :
    remove_bitmaps [devBmA] "qmpbackup" "u9"
      = .ok (removedBitmapsSpec [devBmA] "qmpbackup" "u9") :=
  c7_remove_bitmaps_amended [devBmA] "qmpbackup" "u9" (by
    intro dev hdev
    simp only [List.mem_singleton] at hdev
    subst hdev
    exact ⟨[.obj [("name", .string "x-qmpbackup-1")]], rfl, by
      intro b hb
      simp only [List.mem_singleton] at hb
      subst hb
      exact ⟨_, rfl, "x-qmpbackup-1", by simp [List.lookup]⟩⟩)

/-- Claim C8: on a well-formed bitmap list, `has_bitmap` is true iff
either a UUID was supplied and some bitmap with a `name` field ends with
it, or no UUID was supplied and the list is non-empty; nameless entries
are ignored. -/
theorem c8_has_bitmap_claim : ∀ (l : List PyVal) (uuid : Option String),
    (∀ b ∈ l, WFBitmapEntry b) →
    computeHasBitmap (.arr l) uuid = .ok (specHasBitmap l uuid) := by
  intro l uuid hwf
  cases uuid with
  | none =>
    cases l with
    | nil => rfl
    | cons b rest =>
      simp [computeHasBitmap, pyLen, specHasBitmap, Bind.bind, Except.bind,
        pure, Except.pure]
  | some u =>
    cases l with
    | nil => rfl
    | cons b rest =>
      have hs := hbLoop_spec u (b :: rest) hwf
      simp [computeHasBitmap, pyLen, pyIterate, Bind.bind, Except.bind,
        pure, Except.pure, hs, specHasBitmap]

/-- Claim C8 witness: the claim applied to a concrete one-element bitmap
list and a matching UUID. -/
theorem c8_has_bitmap_claim_witness :
    computeHasBitmap (.arr [.obj [("name", .string "bm-u1")]]) (some "u1")
      = .ok (specHasBitmap [.obj [("name", .string "bm-u1")]] (some "u1")) :=
  c8_has_bitmap_claim [.obj [("name", .string "bm-u1")]] (some "u1") (by
    intro b hb
    simp only [List.mem_singleton] at hb
    subst hb
    exact ⟨_, rfl, by
      intro v hv
      simp only [List.lookup] at hv
      exact ⟨"bm-u1", by simp_all⟩⟩)

/-- Claim C9, counterexample: the FULL-base guard tests the substring
`FULL-` of the oldest image's full path; a directory whose oldest file is
`aFULL-x` (not a FULL base image, its name merely contains `FULL-`)
passes the guard and the run proceeds to execute check, rebase and
commit commands, returning success. -/
theorem c9_rebase_guards_counterexample :
    rebase (fun _ => true) true "/b" [("aFULL-x", 1), ("INC-y", 2)] false none
      = .ok (true, ["qemu-img check '/b/INC-y'",
          "qemu-img rebase -f qcow2 -F qcow2 -b \"/b/aFULL-x\" \"/b/INC-y\" -u",
          "qemu-img commit '/b/INC-y'"])
    ∧ strStartsWith "aFULL-x" "FULL-" = false :=
  ⟨rfl, by decide⟩

/-- Claim C9, amended: rebase returns failure without executing any image
command when some file name in the directory contains `.partial`, and
likewise when the full joined path of the oldest file (by mtime) does not
contain the substring `FULL-` (the code checks the path, not whether the
oldest file is a FULL base image by name). -/
theorem c9_rebase_guards_amended :
    (∀ (runner : String → Bool) (directory : String)
      (files : List (String × Int)) (dry : Bool) (untl : Option String)
      (f : String × Int), f ∈ files → strContains f.1 ".partial" = true →
      rebase runner true directory files dry untl = .ok (false, []))
    ∧ (∀ (runner : String → Bool) (directory : String)
      (files : List (String × Int)) (dry : Bool) (untl : Option String)
      (h0 : String × Int) (t : List (String × Int)),
      sortByMtime files = h0 :: t →
      strContains (pathJoin directory h0.1) "FULL-" = false →
      rebase runner true directory files dry untl = .ok (false, [])) := by
  constructor
  · intro runner directory files dry untl f hmem hpart
    unfold rebase
    dsimp only
    split
    · rfl
    · split
      · rfl
      · split
        · rfl
        · split
          · rfl
          · rename_i hc
            refine absurd (strContains_joinSpace
              (List.mem_map_of_mem _ (mem_sortByMtime.mpr hmem)) hpart) hc
  · intro runner directory files dry untl h0 t hsort hful
    have h1 : pyListGetI
        ((sortByMtime files).map (fun f => pathJoin directory f.1)) 0
        = .ok (pathJoin directory h0.1) := by
      rw [hsort]; rfl
    unfold rebase
    dsimp only
    split
    · rfl
    · split
      · rfl
      · split
        · rfl
        · split
          · rfl
          · simp only [h1, Bind.bind, Except.bind, hful, Bool.not_false]
            rfl

/-- Claim C9 witness: both amended guards applied to concrete
directories. -/
theorem c9_rebase_guards_amended_witness :
    rebase (fun _ => true) true "/d" [("a.partial", 1)] false none
      = .ok (false, [])
    ∧ rebase (fun _ => true) true "/d" [("nofull", 5)] false none
      = .ok (false, []) :=
  ⟨c9_rebase_guards_amended.1 (fun _ => true) "/d" [("a.partial", 1)] false
      none ("a.partial", 1) (by simp) (by decide),
   c9_rebase_guards_amended.2 (fun _ => true) "/d" [("nofull", 5)] false
      none ("nofull", 5) [] rfl (by decide)⟩

/-- Claim C10, counterexample: an inventory with a single qdev-less
backing-image device returns None (the device is skipped) instead of
failing with an unbound-local error, and with an earlier qdev-carrying
device present, the qdev-less device is still skipped instead of being
appended with the earlier device's qdev. -/
theorem c10_missing_qdev_counterexample :
    get_block_devices jloadsNone abspathId [snapshotDevice] [] argvFullT []
      [] none = .ok none
    ∧ get_block_devices jloadsNone abspathId [normalDevice, snapshotDevice]
      [] argvFullT [] [] none = .ok (some [normalBlockDev]) :=
  ⟨rfl, rfl⟩

/-- Claim C10, amended: a device whose entry lacks the `qdev` key is
never appended to the inventory, whatever the rest of the input and the
qdev binding left by earlier iterations: `backing_image` is only ever
`False` or the backing-image object, never the literal `True`, so the
reuse / unbound-local fall-through is unreachable. -/
theorem c10_missing_qdev_amended : ∀ (jloads : String → Except PyErr PyVal)
    (abspath : String → String) (argv : Argv) (named : List PyVal)
    (excluded included : List String) (uuid : Option String)
    (qdevPrev : Option PyVal) (device : PyVal) (bd : BlockDev)
    (q : Option PyVal),
    device.getItem "qdev" = .error .keyError →
    processDevice jloads abspath argv named excluded included uuid qdevPrev
      device ≠ .ok (some bd, q) := by
  intro jloads abspath argv named excluded included uuid qdevPrev device bd q
    hq h
  unfold processDevice at h
  obtain ⟨r, hr, h⟩ := exceptBind_ok h
  match r with
  | none =>
    have := exceptPure_ok h
    simp at this
  | some m =>
    have h' : phase2 abspath qdevPrev device m = .ok (some bd, q) := h
    rw [phase2_skip hq (phase1_backing_not_true hr)] at h'
    simp at h'

/-- Claim C10 witness: the amended statement applied to the concrete
qdev-less snapshot device. -/
theorem c10_missing_qdev_amended_witness :
    snapshotDevice.getItem "qdev" = .error .keyError
    ∧ processDevice jloadsNone abspathId argvFullT [] [] [] none none
        snapshotDevice ≠ .ok (some normalBlockDev, none) :=
  ⟨rfl, c10_missing_qdev_amended jloadsNone abspathId argvFullT [] [] []
    none none snapshotDevice normalBlockDev none rfl⟩
